import Mathlib

/-!
Shallow embedding of the process-supervision module `bash/__init__.py`:
the `Bash` class (a lifecycle state machine over a spawned child
process), its `BashError`, and the blocking `run` helper.  The OS
collaborators (`Popen`, `poll`, `kill`, `wait`, `communicate`,
`time.time`) are modelled as explicit environment inputs consumed in
source order, and each mutating method additionally returns the trace
of its side effects in program order, so that ordering and one-shot
properties of the terminal transition can be stated.
-/

namespace BashEmbed

/-- Location of the bash program, module constant `_BASH`. -/
def _BASH : String := "/usr/bin/bash"

/-- Maximum-time upper limitation, module constant `_L_MAX_TIME = 60 * 60 * 24 * 2`. -/
def _L_MAX_TIME : Int := 60 * 60 * 24 * 2

/-- Default max time, module constant `_D_MAX_TIME`. -/
def _D_MAX_TIME : Int := 60

/-- Default expected returncodes, module constant `_D_E_CODES`. -/
def _D_E_CODES : List Int := [0]

/-- A Python value supplied for one of the `stdin`/`stdout`/`stderr`
parameters of `Bash.__init__`: the `None` default (inherit), the
`subprocess` sentinels `PIPE`, `DEVNULL` and `STDOUT`, a literal string
payload, or any other object (one that is not writable text). -/
inductive StdSpec where
  | inherit
  | pipe
  | devnull
  | stdoutSentinel
  | literal (s : String)
  | nonText
  deriving DecidableEq

/-- Process status values `_S_RUN`, `_S_COMPLETE`, `_S_TIMEOUT`, `_S_KILL`. -/
inductive Status where
  | running
  | completed
  | timeout
  | killed
  deriving DecidableEq

/-- The `BashError` exception: arguments list, command text, message of
the underlying `subprocess` error. -/
structure BashError where
  args : List String
  cmd : String
  msg : String
  deriving DecidableEq

/-- One observable side effect of a mutating method, in program order:
a field assignment on `self`, a signal/wait on the child, or the
`_log()` append to the log sink. -/
inductive Event where
  | setCode
  | setStatus
  | setEtime
  | setOutput
  | killSignal
  | waitChild
  | logWrite
  deriving DecidableEq

/-- Mutable state of a `Bash` instance.  `stdout`/`stderr` start as the
empty Python string and are overwritten by the pair returned from
`communicate()`, whose components are `None` for streams that were not
pipes; they are therefore `Option String` here, with `some ""` the
initial value.  `stdoutSpec`/`stderrSpec` record the redirection values
handed to `Popen`, which determine what `communicate()` can return. -/
structure Bash where
  args : List String
  cmd : String
  stdin : String
  stdout : Option String
  stderr : Option String
  code : Option Int
  e_codes : List Int
  pid : Int
  s_time : Int
  e_time : Option Int
  m_time : Int
  status : Status
  stdoutSpec : StdSpec
  stderrSpec : StdSpec
  deriving DecidableEq

/-- Environment for one completion check: `poll` is the result of
`self._process.poll()` (the exit code, or `None` while running), `now`
the `time.time()` reading compared against the deadline, `endNow` the
`time.time()` reading stamped into `e_time`, and `drain` the pair
returned by `self._process.communicate()`. -/
structure PollEnv where
  poll : Option Int
  now : Int
  endNow : Int
  drain : Option String × Option String
  deriving DecidableEq

/-- Sentinel list of the constructor guard `stdin not in [None, PIPE, DEVNULL]`. -/
def stdinSentinels : List StdSpec := [StdSpec.inherit, StdSpec.pipe, StdSpec.devnull]

/-- Channel passed to `Popen` for stdin, mirroring
`i = PIPE if stdin not in [None, PIPE, DEVNULL] else stdin`. -/
def resolvedStdin (s : StdSpec) : StdSpec :=
  if s ∈ stdinSentinels then s else StdSpec.pipe

/-- Whether the constructor writes the stdin value as a one-shot payload
and closes the pipe: the same guard as `resolvedStdin`. -/
def writesPayload (s : StdSpec) : Bool := decide (s ∉ stdinSentinels)

/-- What `communicate()` returns for one stream: the drained text when
the stream was opened as a pipe, Python `None` otherwise. -/
def drainOf (spec : StdSpec) (text : String) : Option String :=
  if spec = StdSpec.pipe then some text else none

/-- Instance state produced by a successful spawn: `status` is
`_S_RUN`, `stdin`/`stdout`/`stderr` are fresh empty strings, `code` and
`e_time` are `None`, and `m_time` mirrors
`m_time if m_time is not None else _L_MAX_TIME`. -/
def initState (cmd : String) (fullArgs : List String) (stdoutSpec stderrSpec : StdSpec)
    (m_time : Option Int) (e_codes : List Int) (pid : Int) (now : Int) : Bash :=
  { args := fullArgs
    cmd := cmd
    stdin := ""
    stdout := some ""
    stderr := some ""
    code := none
    e_codes := e_codes
    pid := pid
    s_time := now
    e_time := none
    m_time := match m_time with | some t => t | none => _L_MAX_TIME
    status := Status.running
    stdoutSpec := stdoutSpec
    stderrSpec := stderrSpec }

/-- The constructor `Bash.__init__`.  `self.args = [_BASH] + args + ['-c']`;
`spawn` is the outcome of the `Popen` call (the child pid on success, the
exception text on failure); `writeRes` is the outcome of
`process.stdin.write(stdin); process.stdin.close()`, consulted only when the
guard routes a literal payload; `now` is the `time.time()` stored as
`s_time`.  Any exception in the guarded block is re-raised as
`BashError(self.args, self.cmd, str(e))`. -/
def Bash.init (cmd : String) (args : List String)
    (stdin stdout stderr : StdSpec)
    (m_time : Option Int) (e_codes : List Int)
    (spawn : Except String Int) (writeRes : Except String Unit) (now : Int) :
    Except BashError Bash :=
  let fullArgs := [_BASH] ++ args ++ ["-c"]
  match spawn with
  | Except.error e => Except.error ⟨fullArgs, cmd, e⟩
  | Except.ok pid =>
    if writesPayload stdin then
      match writeRes with
      | Except.error e => Except.error ⟨fullArgs, cmd, e⟩
      | Except.ok _ => Except.ok (initState cmd fullArgs stdout stderr m_time e_codes pid now)
    else Except.ok (initState cmd fullArgs stdout stderr m_time e_codes pid now)

/-- Non-blocking completion check `Bash.is_complete`: if already
terminal, return `True` at once; otherwise poll, and either record the
exit (code, status `_S_COMPLETE`, `e_time`, drained output), or on
deadline expiry kill/wait the child and record status `_S_TIMEOUT`,
`e_time`, drained output; `_log()` runs when the status is no longer
`_S_RUN`, and `self.status != _S_RUN` is returned. -/
def Bash.is_complete (b : Bash) (env : PollEnv) : Bash × Bool × List Event :=
  if b.status ≠ Status.running then (b, true, [])
  else
    let step :=
      match env.poll with
      | some c =>
        ({ b with code := some c, status := Status.completed, e_time := some env.endNow,
                  stdout := env.drain.1, stderr := env.drain.2 },
         [Event.setCode, Event.setStatus, Event.setEtime, Event.setOutput])
      | none =>
        if env.now - b.s_time > b.m_time then
          ({ b with status := Status.timeout, e_time := some env.endNow,
                    stdout := env.drain.1, stderr := env.drain.2 },
           [Event.killSignal, Event.waitChild, Event.setStatus, Event.setEtime, Event.setOutput])
        else (b, ([] : List Event))
    let b1 := step.1
    let tr := if b1.status ≠ Status.running then step.2 ++ [Event.logWrite] else step.2
    (b1, decide (b1.status ≠ Status.running), tr)

/-- `Bash.kill`: runs `self.is_complete()` first; only when that returns
`False` does it signal and wait the child, stamp `e_time`, drain output
and finally set the status to `_S_KILL` (no `_log()` call on this path). -/
def Bash.kill (b : Bash) (env : PollEnv) : Bash × List Event :=
  let r := b.is_complete env
  if r.2.1 then (r.1, r.2.2)
  else
    ({ r.1 with e_time := some env.endNow, stdout := env.drain.1, stderr := env.drain.2,
                status := Status.killed },
     r.2.2 ++ [Event.killSignal, Event.waitChild, Event.setEtime, Event.setOutput, Event.setStatus])

/-- `Bash.is_timeout`: `self.is_complete() and self.status == _S_TIMEOUT`. -/
def Bash.is_timeout (b : Bash) (env : PollEnv) : Bash × Bool × List Event :=
  let r := b.is_complete env
  (r.1, r.2.1 && decide (r.1.status = Status.timeout), r.2.2)

/-- Python membership `self.code in self.e_codes` where `self.code` may
still be `None` and `self.e_codes` is a list of ints: `None` is a member
of no such list. -/
def pyCodeMem (c : Option Int) (l : List Int) : Bool :=
  match c with
  | some x => decide (x ∈ l)
  | none => false

/-- `Bash.check_code`: `None if not self.is_complete() else self.code in self.e_codes`. -/
def Bash.check_code (b : Bash) (env : PollEnv) : Bash × Option Bool × List Event :=
  let r := b.is_complete env
  (r.1, if r.2.1 then some (pyCodeMem r.1.code r.1.e_codes) else none, r.2.2)

/-- The polling loop of `run`: `while process.is_complete() is False: pass`,
driven by a finite schedule of environment steps (`none` when the schedule
is exhausted before the loop exits; the real loop would keep spinning). -/
def runLoop (b : Bash) : List PollEnv → Option Bash
  | [] => none
  | e :: es =>
    let r := b.is_complete e
    if r.2.1 then some r.1 else runLoop r.1 es

/-- The module-level `run`: construct a `Bash`, then poll `is_complete`
in a tight loop with no sleep until it returns true. -/
def run (cmd : String) (args : List String)
    (stdin stdout stderr : StdSpec)
    (m_time : Option Int) (e_codes : List Int)
    (spawn : Except String Int) (writeRes : Except String Unit) (now : Int)
    (envs : List PollEnv) : Except BashError (Option Bash) :=
  match Bash.init cmd args stdin stdout stderr m_time e_codes spawn writeRes now with
  | Except.error e => Except.error e
  | Except.ok b => Except.ok (runLoop b envs)

/-- Index of the first occurrence of an event in a trace. -/
def firstIdx (e : Event) : List Event → Option Nat
  | [] => none
  | x :: xs => if x = e then some 0 else (firstIdx e xs).map (· + 1)

/-- Whether the first occurrence of `a` strictly precedes the first
occurrence of `b` in the trace (false when either is absent). -/
def eventBefore (a b : Event) (t : List Event) : Bool :=
  match firstIdx a t, firstIdx b t with
  | some i, some j => decide (i < j)
  | _, _ => false

/-- A freshly constructed instance, as `Bash("sleep 5")` with all
defaults would produce it: pid 100, start time 1000, max time 60,
stdout and stderr inherited. -/
def sampleBash : Bash :=
  { args := [_BASH, "-c"]
    cmd := "sleep 5"
    stdin := ""
    stdout := some ""
    stderr := some ""
    code := none
    e_codes := [0]
    pid := 100
    s_time := 1000
    e_time := none
    m_time := 60
    status := Status.running
    stdoutSpec := StdSpec.inherit
    stderrSpec := StdSpec.inherit }

/-- Environment step at time 1001 where the child is still running and
within its deadline. -/
def envStillRunning : PollEnv :=
  { poll := none, now := 1001, endNow := 1001, drain := (none, none) }

/-- Environment step at time 1001 where the child has exited with code 0;
both streams were inherited, so `communicate()` returns `(None, None)`. -/
def envExited : PollEnv :=
  { poll := some 0, now := 1001, endNow := 1001,
    drain := (drainOf StdSpec.inherit "", drainOf StdSpec.inherit "") }

/-- An instance already in a terminal state. -/
def sampleDone : Bash :=
  { sampleBash with status := Status.completed, code := some 0, e_time := some 1002 }

/-- The state reached from `sampleBash` by observing the exit in `envExited`. -/
def bDone : Bash := (sampleBash.is_complete envExited).1

theorem is_complete_snd_iff (b : Bash) (env : PollEnv) :
    (b.is_complete env).2.1 = true ↔ (b.is_complete env).1.status ≠ Status.running := by
  unfold Bash.is_complete
  split
  · next h => simpa using h
  · cases hp : env.poll with
    | some c => simp
    | none =>
      by_cases ht : env.now - b.s_time > b.m_time
      · simp [ht]
      · next h => simp [ht, h]

/-- Claim C1: the constructor stores a caller-supplied `m_time` of 172801
unchanged, above `_L_MAX_TIME = 172800`, and stores `-1` unchanged, below
`0` — only a `None` value is replaced (by `_L_MAX_TIME`), so `m_time` is
not clamped into `[0, _L_MAX_TIME]` as the constructor docstring states;
the part of the claim about `m_time = 0` does hold: the first check on a
still-running child one second after the start takes the timeout branch. -/
theorem C1_m_time_not_clamped :
    (Bash.init "true" [] StdSpec.inherit StdSpec.inherit StdSpec.inherit
        (some 172801) [0] (Except.ok 42) (Except.ok ()) 0).map Bash.m_time
      = Except.ok 172801
    ∧ (Bash.init "true" [] StdSpec.inherit StdSpec.inherit StdSpec.inherit
        (some (-1)) [0] (Except.ok 42) (Except.ok ()) 0).map Bash.m_time
      = Except.ok (-1)
    ∧ ¬ ((172801 : Int) ≤ _L_MAX_TIME)
    ∧ ¬ ((0 : Int) ≤ (-1 : Int))
    ∧ (({ sampleBash with m_time := 0 }).is_complete envStillRunning).1.status
        = Status.timeout :=
  ⟨rfl, rfl, by decide, by decide, by decide⟩

/-- Claim C2 counterexample: `kill()` invoked while the status is still
`_S_RUN`, in an environment where the child has already exited with code 0
but that exit has not yet been observed, leaves the status `_S_COMPLETE`,
not `_S_KILL`: the internal `is_complete()` call observes the exit first
and the kill body is skipped. -/
theorem C2_counterexample :
    sampleBash.status = Status.running
    ∧ (sampleBash.kill envExited).1.status = Status.completed
    ∧ (sampleBash.kill envExited).1.status ≠ Status.killed :=
  ⟨rfl, by decide, by decide⟩

/-- Claim C2 as amended: `kill()` from the running state yields `_S_KILL`
only when the internal completion check observes neither an exit nor a
deadline expiry; when the status is already terminal, `kill()` leaves the
instance entirely unchanged. -/
theorem C2_kill_amended (b : Bash) (env : PollEnv) :
    (b.status = Status.running → env.poll = none → ¬ env.now - b.s_time > b.m_time →
      (b.kill env).1.status = Status.killed)
    ∧ (b.status ≠ Status.running → (b.kill env).1 = b) := by
  constructor
  · intro h hp ht
    unfold Bash.kill Bash.is_complete
    simp [h, hp, ht]
  · intro h
    unfold Bash.kill Bash.is_complete
    simp [h]

/-- Claim C2 witness: at concrete inputs, a kill of a running,
within-deadline child yields `_S_KILL`, and a kill of an already-completed
instance changes nothing. -/
theorem C2_kill_amended_witness :
    (sampleBash.kill envStillRunning).1.status = Status.killed
    ∧ (sampleDone.kill envExited).1 = sampleDone :=
  ⟨(C2_kill_amended sampleBash envStillRunning).1 rfl rfl (by decide),
   (C2_kill_amended sampleDone envExited).2 (by decide)⟩

/-- Claim C6: once the status is terminal, `is_complete` returns `True`
immediately and leaves the instance unchanged, with no poll, no field
assignment and no log record, whatever the environment offers. -/
theorem C6_is_complete_idempotent (b : Bash) (env : PollEnv)
    (h : b.status ≠ Status.running) :
    b.is_complete env = (b, true, []) := by
  unfold Bash.is_complete
  simp [h]

/-- Claim C6 witness: the idempotence theorem applied to a completed
instance and a fresh environment step. -/
theorem C6_is_complete_idempotent_witness :
    sampleDone.status ≠ Status.running
    ∧ sampleDone.is_complete envStillRunning = (sampleDone, true, []) :=
  ⟨by decide, C6_is_complete_idempotent sampleDone envStillRunning (by decide)⟩

/-- Claim C3 counterexample: the transition into `_S_KILL` performed by
`kill()` on a running, within-deadline child appends no record to the log
sink — the full side-effect trace of the call contains no `_log()` write —
so the log does not happen on the transition into every terminal state. -/
theorem C3_counterexample :
    sampleBash.status = Status.running
    ∧ (sampleBash.kill envStillRunning).1.status = Status.killed
    ∧ (sampleBash.kill envStillRunning).2.count Event.logWrite = 0 :=
  ⟨rfl, by decide, by decide⟩

/-- Claim C3 as amended: the log side effect happens exactly once on a
transition performed inside `is_complete` (into `_S_COMPLETE` or
`_S_TIMEOUT`) and never on any later check, while the transition into
`_S_KILL` performed by `kill()` writes no log record at all. -/
theorem C3_log_amended (b : Bash) (env : PollEnv) :
    (b.status = Status.running → (b.is_complete env).1.status ≠ Status.running →
      (b.is_complete env).2.2.count Event.logWrite = 1)
    ∧ (b.status ≠ Status.running →
      (b.is_complete env).2.2 = [] ∧ (b.kill env).2 = [])
    ∧ (b.status = Status.running → env.poll = none → ¬ env.now - b.s_time > b.m_time →
      (b.kill env).2.count Event.logWrite = 0) := by
  refine ⟨?_, ?_, ?_⟩
  · intro h hterm
    unfold Bash.is_complete at hterm ⊢
    cases hp : env.poll with
    | some c => simp [h, hp]
    | none =>
      by_cases ht : env.now - b.s_time > b.m_time
      · simp [h, hp, ht]
      · simp [h, hp, ht] at hterm
  · intro h
    constructor
    · unfold Bash.is_complete
      simp [h]
    · unfold Bash.kill Bash.is_complete
      simp [h]
  · intro h hp ht
    unfold Bash.kill Bash.is_complete
    simp [h, hp, ht]

/-- Claim C3 witness: at concrete inputs, the exit transition logs once,
an already-terminal check logs nothing, and the kill transition logs
nothing. -/
theorem C3_log_amended_witness :
    (sampleBash.is_complete envExited).2.2.count Event.logWrite = 1
    ∧ (sampleDone.is_complete envExited).2.2 = []
    ∧ (sampleBash.kill envStillRunning).2.count Event.logWrite = 0 :=
  ⟨(C3_log_amended sampleBash envExited).1 rfl (by decide),
   ((C3_log_amended sampleDone envExited).2.1 (by decide)).1,
   (C3_log_amended sampleBash envStillRunning).2.2 rfl rfl (by decide)⟩

/-- Claim C4 counterexample: on the `kill()` transition the status
assignment is the last side effect — `e_time` is stamped and the output
drained before `self.status = _S_KILL` runs — so the status is not set
first on every terminal transition. -/
theorem C4_counterexample :
    (sampleBash.kill envStillRunning).2
      = [Event.killSignal, Event.waitChild, Event.setEtime, Event.setOutput, Event.setStatus]
    ∧ eventBefore Event.setStatus Event.setEtime (sampleBash.kill envStillRunning).2 = false
    ∧ eventBefore Event.setEtime Event.setStatus (sampleBash.kill envStillRunning).2 = true :=
  ⟨by decide, by decide, by decide⟩

/-- Claim C4 as amended: on the two transitions performed inside
`is_complete` (exit and timeout) the status is assigned before `e_time`
and `e_time` before the output, but on the `kill()` transition the order
is `e_time`, then output, then status. -/
theorem C4_order_amended (b : Bash) (env : PollEnv) :
    (b.status = Status.running → (b.is_complete env).1.status ≠ Status.running →
      eventBefore Event.setStatus Event.setEtime (b.is_complete env).2.2 = true
      ∧ eventBefore Event.setEtime Event.setOutput (b.is_complete env).2.2 = true)
    ∧ (b.status = Status.running → env.poll = none → ¬ env.now - b.s_time > b.m_time →
      eventBefore Event.setEtime Event.setOutput (b.kill env).2 = true
      ∧ eventBefore Event.setOutput Event.setStatus (b.kill env).2 = true) := by
  constructor
  · intro h hterm
    unfold Bash.is_complete at hterm ⊢
    cases hp : env.poll with
    | some c => simp [h, hp]; exact ⟨by decide, by decide⟩
    | none =>
      by_cases ht : env.now - b.s_time > b.m_time
      · simp [h, hp, ht]; exact ⟨by decide, by decide⟩
      · simp [h, hp, ht] at hterm
  · intro h hp ht
    unfold Bash.kill Bash.is_complete
    simp [h, hp, ht]
    exact ⟨by decide, by decide⟩

/-- Claim C4 witness: the amended ordering theorem applied to the exit
transition and to the kill transition at concrete inputs. -/
theorem C4_order_amended_witness :
    eventBefore Event.setStatus Event.setEtime (sampleBash.is_complete envExited).2.2 = true
    ∧ eventBefore Event.setOutput Event.setStatus (sampleBash.kill envStillRunning).2 = true :=
  ⟨((C4_order_amended sampleBash envExited).1 rfl (by decide)).1,
   ((C4_order_amended sampleBash envStillRunning).2 rfl rfl (by decide)).2⟩

/-- Claim C5 counterexample: with stdout left inherited (not a pipe),
`communicate()` returns Python `None` for that stream, and the terminal
transition stores that `None` into `self.stdout` — the captured stdout of
a completed instance is not a string for this redirection configuration. -/
theorem C5_counterexample :
    sampleBash.stdoutSpec ≠ StdSpec.pipe
    ∧ sampleBash.stdout = some ""
    ∧ envExited.drain.1 = drainOf sampleBash.stdoutSpec ""
    ∧ (sampleBash.is_complete envExited).1.status = Status.completed
    ∧ (sampleBash.is_complete envExited).1.stdout = none :=
  ⟨by decide, rfl, rfl, by decide, by decide⟩

/-- Claim C5 as amended: `stdout`/`stderr` hold the empty string from
construction until a terminal transition; the transition assigns them
exactly once with the pair `communicate()` returns, namely the drained
text for a stream opened as a pipe and Python `None` otherwise; once
terminal, neither `is_complete` nor `kill` touches them again. -/
theorem C5_output_amended (b : Bash) (env : PollEnv) (so se : String)
    (hso : env.drain.1 = drainOf b.stdoutSpec so)
    (hse : env.drain.2 = drainOf b.stderrSpec se) :
    (b.status = Status.running → (b.is_complete env).1.status ≠ Status.running →
      (b.is_complete env).1.stdout = drainOf b.stdoutSpec so
      ∧ (b.is_complete env).1.stderr = drainOf b.stderrSpec se
      ∧ (b.is_complete env).2.2.count Event.setOutput = 1)
    ∧ (b.status ≠ Status.running →
      (b.is_complete env).1 = b ∧ (b.kill env).1 = b
      ∧ (b.is_complete env).2.2.count Event.setOutput = 0
      ∧ (b.kill env).2.count Event.setOutput = 0)
    ∧ (∀ cmd args si so' se' mt ec pid wr now b0,
        Bash.init cmd args si so' se' mt ec (Except.ok pid) wr now = Except.ok b0 →
        b0.stdout = some "" ∧ b0.stderr = some "") := by
  refine ⟨?_, ?_, ?_⟩
  · intro h hterm
    unfold Bash.is_complete at hterm ⊢
    cases hp : env.poll with
    | some c => simp [h, hp, hso, hse]
    | none =>
      by_cases ht : env.now - b.s_time > b.m_time
      · simp [h, hp, ht, hso, hse]
      · simp [h, hp, ht] at hterm
  · intro h
    refine ⟨?_, ?_, ?_, ?_⟩
    · unfold Bash.is_complete
      simp [h]
    · unfold Bash.kill Bash.is_complete
      simp [h]
    · unfold Bash.is_complete
      simp [h]
    · unfold Bash.kill Bash.is_complete
      simp [h]
  · intro cmd args si so' se' mt ec pid wr now b0 hinit
    unfold Bash.init at hinit
    by_cases hw : writesPayload si = true
    · cases wr with
      | error e => simp [hw] at hinit
      | ok u =>
        simp [hw] at hinit
        simp [← hinit, initState]
    · simp [hw] at hinit
      simp [← hinit, initState]

/-- Claim C5 witness: the amended theorem applied to the exit transition
of an instance with inherited streams, and to an already-completed
instance. -/
theorem C5_output_amended_witness :
    (sampleBash.is_complete envExited).1.stdout = drainOf StdSpec.inherit ""
    ∧ (sampleDone.is_complete envExited).1 = sampleDone :=
  ⟨((C5_output_amended sampleBash envExited "" "" rfl rfl).1 rfl (by decide)).1,
   ((C5_output_amended sampleDone envExited "" "" rfl rfl).2.1 (by decide)).1⟩

/-- Claim C7: `check_code` answers `None` exactly when the instance is
still running after the completion check it performs (which may itself
take the timeout transition), and otherwise answers whether the recorded
exit code is a member of the expected codes; its state effect is exactly
that of `is_complete`. -/
theorem C7_check_code (b : Bash) (env : PollEnv) :
    ((b.check_code env).2.1 = none ↔ (b.is_complete env).1.status = Status.running)
    ∧ ((b.is_complete env).1.status ≠ Status.running →
      (b.check_code env).2.1
        = some (pyCodeMem ((b.is_complete env).1.code) ((b.is_complete env).1.e_codes)))
    ∧ (b.check_code env).1 = (b.is_complete env).1 := by
  have hiff := is_complete_snd_iff b env
  unfold Bash.check_code
  cases hb : (b.is_complete env).2.1 with
  | false =>
    rw [hb] at hiff
    simp at hiff
    simp [hb, hiff]
  | true =>
    rw [hb] at hiff
    simp at hiff
    simp [hb, hiff]

/-- Claim C7 witness: after the exit transition, `check_code` answers the
membership test of the recorded code in the expected codes. -/
theorem C7_check_code_witness :
    (sampleBash.check_code envExited).2.1
      = some (pyCodeMem ((sampleBash.is_complete envExited).1.code)
              ((sampleBash.is_complete envExited).1.e_codes)) :=
  (C7_check_code sampleBash envExited).2.1 (by decide)

/-- Claim C8: when the spawn fails the constructor produces exactly a
`BashError` carrying the resolved argv `[_BASH] + args + ['-c']`, the
command text and the underlying message; likewise when the one-shot stdin
write fails after a successful spawn; on success it produces an instance
whose status is `_S_RUN`, with the pid and start time recorded, the code
and end time absent, and the argv and command stored. -/
theorem C8_init_behavior (cmd : String) (args : List String)
    (si so se : StdSpec) (mt : Option Int) (ec : List Int)
    (pid : Int) (wr : Except String Unit) (now : Int) (emsg : String) :
    (Bash.init cmd args si so se mt ec (Except.error emsg) wr now
      = Except.error ⟨[_BASH] ++ args ++ ["-c"], cmd, emsg⟩)
    ∧ (writesPayload si = true →
      Bash.init cmd args si so se mt ec (Except.ok pid) (Except.error emsg) now
        = Except.error ⟨[_BASH] ++ args ++ ["-c"], cmd, emsg⟩)
    ∧ (∀ b, Bash.init cmd args si so se mt ec (Except.ok pid) wr now = Except.ok b →
      b.status = Status.running ∧ b.pid = pid ∧ b.s_time = now
      ∧ b.code = none ∧ b.e_time = none
      ∧ b.args = [_BASH] ++ args ++ ["-c"] ∧ b.cmd = cmd) := by
  refine ⟨rfl, ?_, ?_⟩
  · intro hw
    unfold Bash.init
    simp [hw]
  · intro b hinit
    unfold Bash.init at hinit
    by_cases hw : writesPayload si = true
    · cases wr with
      | error e => simp [hw] at hinit
      | ok u =>
        simp [hw] at hinit
        simp [← hinit, initState]
    · simp [hw] at hinit
      simp [← hinit, initState]

/-- Claim C8 witness: a literal stdin payload whose write fails surfaces
as a `BashError` with the resolved argv, command and message, and a plain
successful spawn yields a running instance with pid and start time set. -/
theorem C8_init_behavior_witness :
    (Bash.init "cat" [] (StdSpec.literal "hello") StdSpec.pipe StdSpec.pipe
        (some 60) [0] (Except.ok 7) (Except.error "write failed") 5
      = Except.error ⟨[_BASH, "-c"], "cat", "write failed"⟩)
    ∧ (∀ b, Bash.init "cat" [] (StdSpec.literal "hello") StdSpec.pipe StdSpec.pipe
        (some 60) [0] (Except.ok 7) (Except.ok ()) 5 = Except.ok b →
      b.status = Status.running ∧ b.pid = 7 ∧ b.s_time = 5) :=
  ⟨(C8_init_behavior "cat" [] (StdSpec.literal "hello") StdSpec.pipe StdSpec.pipe
      (some 60) [0] 7 (Except.error "write failed") 5 "write failed").2.1 (by decide),
   fun b hb =>
    let h := (C8_init_behavior "cat" [] (StdSpec.literal "hello") StdSpec.pipe StdSpec.pipe
      (some 60) [0] 7 (Except.ok ()) 5 "write failed").2.2 b hb
    ⟨h.1, h.2.1, h.2.2.1⟩⟩

/-- Claim C9: whenever the polling loop of `run` exits, the instance it
hands back is in a terminal state — its status is not `_S_RUN`. -/
theorem C9_run_terminal (b : Bash) (envs : List PollEnv) (b' : Bash)
    (h : runLoop b envs = some b') : b'.status ≠ Status.running := by
  induction envs generalizing b with
  | nil => simp [runLoop] at h
  | cons e es ih =>
    rw [runLoop] at h
    by_cases hc : (b.is_complete e).2.1 = true
    · simp only [hc, if_true] at h
      cases h
      exact (is_complete_snd_iff b e).mp hc
    · simp only [hc, if_false] at h
      exact ih _ h

/-- Claim C9 witness: the loop run on a fresh instance with a schedule in
which the child exits returns an instance whose state is terminal. -/
theorem C9_run_terminal_witness :
    runLoop sampleBash [envExited] = some bDone
    ∧ bDone.status ≠ Status.running :=
  ⟨rfl, C9_run_terminal sampleBash [envExited] bDone rfl⟩

/-- Claim C10: the constructor's stdin guard recognizes only `None`,
`PIPE` and `DEVNULL`; any other value — the `STDOUT` sentinel, a literal
string, or a non-text object — causes stdin to be opened as a pipe and
the value to be written to it, and when that write fails the constructor
raises a `BashError` even though the spawn itself succeeded; for the
three sentinels the value is passed through unchanged and no write is
attempted, so the constructor succeeds for any write outcome. -/
theorem C10_stdin_guard (s : StdSpec) (cmd : String) (args : List String)
    (so se : StdSpec) (mt : Option Int) (ec : List Int) (pid : Int) (now : Int)
    (emsg : String) :
    (s ∉ stdinSentinels →
      resolvedStdin s = StdSpec.pipe ∧ writesPayload s = true
      ∧ Bash.init cmd args s so se mt ec (Except.ok pid) (Except.error emsg) now
          = Except.error ⟨[_BASH] ++ args ++ ["-c"], cmd, emsg⟩)
    ∧ (s ∈ stdinSentinels →
      resolvedStdin s = s ∧ writesPayload s = false
      ∧ ∀ wr, Bash.init cmd args s so se mt ec (Except.ok pid) wr now
          = Except.ok (initState cmd ([_BASH] ++ args ++ ["-c"]) so se mt ec pid now)) := by
  constructor
  · intro hs
    have hw : writesPayload s = true := by
      unfold writesPayload
      simpa using hs
    refine ⟨?_, hw, ?_⟩
    · unfold resolvedStdin
      simp [hs]
    · unfold Bash.init
      simp [hw]
  · intro hs
    have hw : writesPayload s = false := by
      unfold writesPayload
      simpa using hs
    refine ⟨?_, hw, ?_⟩
    · unfold resolvedStdin
      simp [hs]
    · intro wr
      unfold Bash.init
      simp [hw]

/-- Claim C10 witness: the `STDOUT` sentinel is not recognized by the
guard — stdin becomes a pipe, a write is attempted, and a failing write
(a `TypeError` on a non-text value) surfaces as a `BashError`. -/
theorem C10_stdin_guard_witness :
    resolvedStdin StdSpec.stdoutSentinel = StdSpec.pipe
    ∧ writesPayload StdSpec.stdoutSentinel = true
    ∧ Bash.init "x" [] StdSpec.stdoutSentinel StdSpec.inherit StdSpec.inherit
        none [0] (Except.ok 1) (Except.error "TypeError") 0
      = Except.error ⟨[_BASH, "-c"], "x", "TypeError"⟩ :=
  (C10_stdin_guard StdSpec.stdoutSentinel "x" [] StdSpec.inherit StdSpec.inherit
    none [0] 1 0 "TypeError").1 (by decide)

end BashEmbed
